import Mathlib

/-!
Verification development for the alpm-experimental package database library.

The definitions below are shallow embeddings of the Rust source:
  - `src/version.rs` (version parsing, block comparison, ordering, hashing),
  - `src/alpm_desc/ser.rs` and `src/alpm_desc/de.rs` (the desc-format codec),
  - `src/db/local/mod.rs`, `src/db/local/package.rs`, `src/db/sync.rs`
    (database status, package lookup, validation, synchronization).

Machine integers are modelled as `Nat`; byte strings as `List Nat` of UTF-8
bytes; fallible Rust code returns `Option`/`Except`-like inductives, and a
Rust `panic!`/`unwrap`/`expect`/`unimplemented!` outcome is modelled by a
dedicated constructor so that panicking and returning an error value are
distinguishable.  Loops whose fuel is not structural are given an explicit
fuel parameter; every such loop consumes at least one element of its input
per iteration, so the fuel supplied by the wrapper (input length + 1) is
always sufficient and the fuel-exhaustion branch is unreachable.
-/

namespace Alpm

/-- UTF-8 encoding of a single character (standard 1-4 byte encoding),
used to model Rust `str::as_bytes`. -/
def charUtf8 (c : Char) : List Nat :=
  let n := c.toNat
  if n < 0x80 then [n]
  else if n < 0x800 then
    [0xC0 ||| (n >>> 6), 0x80 ||| (n &&& 0x3F)]
  else if n < 0x10000 then
    [0xE0 ||| (n >>> 12), 0x80 ||| ((n >>> 6) &&& 0x3F), 0x80 ||| (n &&& 0x3F)]
  else
    [0xF0 ||| (n >>> 18), 0x80 ||| ((n >>> 12) &&& 0x3F),
     0x80 ||| ((n >>> 6) &&& 0x3F), 0x80 ||| (n &&& 0x3F)]

/-- The UTF-8 byte sequence of a string, as `Nat`s (Rust `str::as_bytes`). -/
def strBytes (s : String) : List Nat :=
  s.toList.foldr (fun c acc => charUtf8 c ++ acc) []

/-- Rust `u8::is_ascii_digit`. -/
def isDigitByte (b : Nat) : Bool := 48 ≤ b && b ≤ 57

/-- Rust `u8::is_ascii_alphabetic`. -/
def isAlphaByte (b : Nat) : Bool := (65 ≤ b && b ≤ 90) || (97 ≤ b && b ≤ 122)

/-- Rust `u8::is_ascii_alphanumeric`. -/
def isAlphanumByte (b : Nat) : Bool := isDigitByte b || isAlphaByte b

/-- `src/version.rs` `discard_zeros`: drop leading `b'0'` bytes. -/
def discard_zeros (input : List Nat) : List Nat := input.dropWhile (· == 48)

/-- `src/version.rs` `Block`: a part of a version string. -/
inductive Block where
  /-- A run of non-alphanumeric bytes (only its length is kept). -/
  | separator (len : Nat)
  /-- A block starting with an alphabetic byte. -/
  | alpha (bytes : List Nat)
  /-- A block of numeric bytes, leading zeros removed. -/
  | numeric (bytes : List Nat)
  deriving DecidableEq, Repr

/-- One step of `BlocksIter::next` followed by the remaining iteration
(fuel-bounded; one block is produced per unit of fuel and each block
consumes at least one byte).  NOTE: this is a faithful translation of
`impl Iterator for BlocksIter` in `src/version.rs` lines 172-196.  In the
alphabetic branch the source invokes `get_block!(self.rest, u8::is_ascii_digit)`,
i.e. after the first (alphabetic) byte the block is extended with DIGIT
bytes, not alphabetic ones; the translation preserves that behaviour. -/
def blocksFuel : Nat → List Nat → List Block
  | 0, _ => []
  | _, [] => []
  | fuel + 1, b :: rest =>
    if isDigitByte b then
      let blk := b :: rest.takeWhile isDigitByte
      Block.numeric (discard_zeros blk) :: blocksFuel fuel (rest.dropWhile isDigitByte)
    else if isAlphaByte b then
      let blk := b :: rest.takeWhile isDigitByte
      Block.alpha blk :: blocksFuel fuel (rest.dropWhile isDigitByte)
    else
      let blk := b :: rest.takeWhile (fun x => !(isAlphanumByte x))
      Block.separator blk.length ::
        blocksFuel fuel (rest.dropWhile (fun x => !(isAlphanumByte x)))

/-- All blocks of a byte string, in order (`BlocksIter::new(input)` run to
exhaustion). -/
def blocks (input : List Nat) : List Block := blocksFuel (input.length + 1) input

/-- Rust `<[u8] as Ord>::cmp`: lexicographic byte comparison where a strict
prefix is smaller. -/
def cmpBytes : List Nat → List Nat → Ordering
  | [], [] => .eq
  | [], _ :: _ => .lt
  | _ :: _, [] => .gt
  | a :: as', b :: bs' =>
    if a < b then .lt else if b < a then .gt else cmpBytes as' bs'

/-- The `Left(_)` arms of `version_cmp`: only the left iterator still yields
blocks.  `Left(Numeric) => Greater`, `Left(Alpha) => Less`,
`Left(Separator) => continue`. -/
def cmpLeftRest : List Block → Ordering
  | [] => .eq
  | .numeric _ :: _ => .gt
  | .alpha _ :: _ => .lt
  | .separator _ :: rest => cmpLeftRest rest

/-- The `Right(_)` arms of `version_cmp`: only the right iterator still
yields blocks.  `Right(Alpha) => Greater`, `Right(Numeric) => Less`,
`Right(Separator) => continue`. -/
def cmpRightRest : List Block → Ordering
  | [] => .eq
  | .alpha _ :: _ => .gt
  | .numeric _ :: _ => .lt
  | .separator _ :: rest => cmpRightRest rest

/-- The pairwise walk of `version_cmp` (`src/version.rs` lines 216-271) over
the two block sequences, zipped longest.  In the `Both(Separator, Separator)`
arm the source peeks: if the zipped iterator is exhausted (both sides have no
further block) the result is `Equal` regardless of the lengths. -/
def version_cmp_blocks : List Block → List Block → Ordering
  | [], bs => cmpRightRest bs
  | a :: as', [] => cmpLeftRest (a :: as')
  | a :: as', b :: bs' =>
    match a, b with
    | .separator _, .numeric _ => .gt
    | .separator _, .alpha _ => .gt
    | .numeric _, .alpha _ => .gt
    | .numeric _, .separator _ => .lt
    | .alpha _, .separator _ => .lt
    | .alpha _, .numeric _ => .lt
    | .numeric l, .numeric r =>
      match compare l.length r.length with
      | .eq =>
        match cmpBytes l r with
        | .eq => version_cmp_blocks as' bs'
        | o => o
      | o => o
    | .alpha l, .alpha r =>
      match cmpBytes l r with
      | .eq => version_cmp_blocks as' bs'
      | o => o
    | .separator ll, .separator rl =>
      if as'.isEmpty && bs'.isEmpty then .eq
      else
        match compare ll rl with
        | .eq => version_cmp_blocks as' bs'
        | o => o

/-- `src/version.rs` `version_cmp` on byte strings. -/
def version_cmp_bytes (left right : List Nat) : Ordering :=
  version_cmp_blocks (blocks left) (blocks right)

/-- `version_cmp` applied to the UTF-8 bytes of two strings. -/
def version_cmp (left right : String) : Ordering :=
  version_cmp_bytes (strBytes left) (strBytes right)

/-- `src/version.rs` `Version`: epoch (defaults to `"0"`), version,
optional release. -/
structure Version where
  epoch : String
  version : String
  release : Option String
  deriving DecidableEq, Repr

/-- `Version::parse` (`src/version.rs` lines 37-72).  An epoch is present
exactly when the input starts with `digit* ':'`; the release is everything
after the LAST `-` of the remaining input, when a `-` exists. -/
def Version.parse (input : String) : Version :=
  let chars := input.toList
  let ds := chars.takeWhile Char.isDigit
  let (epoch, inputMinusEpoch) :=
    match chars.drop ds.length with
    | ':' :: tail => (String.mk ds, tail)
    | _ => ("0", chars)
  let rev := inputMinusEpoch.reverse
  let relRev := rev.takeWhile (fun c => c ≠ '-')
  if relRev.length = rev.length then
    { epoch := epoch, version := String.mk inputMinusEpoch, release := none }
  else
    { epoch := epoch
      version := String.mk ((rev.drop (relRev.length + 1)).reverse)
      release := some (String.mk relRev.reverse) }

/-- `impl Ord for Version` (`src/version.rs` lines 95-112): compare epochs,
then versions, then releases — but if either release is missing the releases
compare `Equal`. -/
def Version.cmp (a b : Version) : Ordering :=
  match version_cmp a.epoch b.epoch with
  | .eq =>
    match version_cmp a.version b.version with
    | .eq =>
      match a.release, b.release with
      | some l, some r => version_cmp l r
      | _, _ => .eq
    | o => o
  | o => o

/-- `impl PartialEq for Version`: equality is `cmp == Equal`. -/
def Version.beq (a b : Version) : Bool := Version.cmp a b == .eq

/-- Parse two strings and compare the resulting versions
(`Version::parse` followed by `Ord::cmp`). -/
def parsedCmp (a b : String) : Ordering :=
  Version.cmp (Version.parse a) (Version.parse b)

/-- One call made on the `Hasher` while hashing (Rust `Hasher::write` /
`Hasher::write_usize`). -/
inductive HashEvent where
  | write (bytes : List Nat)
  | writeUsize (n : Nat)
  deriving DecidableEq, Repr

/-- `src/version.rs` `version_hash` (lines 275-295): walk the block
sequence; alpha and numeric block bytes are written to the hasher; a
separator length is written only when it is not the final block. -/
def version_hash_blocks : List Block → List HashEvent
  | [] => []
  | .alpha bs :: rest => .write bs :: version_hash_blocks rest
  | .numeric bs :: rest => .write bs :: version_hash_blocks rest
  | .separator len :: rest =>
    if rest.isEmpty then version_hash_blocks rest
    else .writeUsize len :: version_hash_blocks rest

/-- `version_hash` of a string section: the sequence of hasher calls. -/
def version_hash (input : String) : List HashEvent :=
  version_hash_blocks (blocks (strBytes input))

/-- `impl Hash for Version` (`src/version.rs` lines 122-133): hash the
epoch, the version, and — only when present — the release. -/
def Version.hashEvents (v : Version) : List HashEvent :=
  version_hash v.epoch ++ version_hash v.version ++
    (match v.release with
     | some r => version_hash r
     | none => [])

/-! ### The desc-format codec (`src/alpm_desc/ser.rs`, `src/alpm_desc/de.rs`)

The deserializer is modelled for the non-Windows configuration
(`Deserializer::from_str`, line ending `"\n"`, record delimiter `"\n\n"`).
-/

/-- `src/alpm_desc/de_error.rs` `ErrorKind` (the constructors relevant to
the modelled paths; `custom` carries the message of serde `Error::custom`,
which the derived record deserializer uses for missing required fields). -/
inductive DeErrorKind where
  | unsupported
  | expectedKey
  | expectedBool
  | expectedUnsigned
  | expectedSigned
  | expectedFloat
  | expectedChar
  | expectedEmpty
  | custom (msg : String)
  deriving DecidableEq, Repr

/-- Outcome of running a fallible piece of Rust code: normal return,
an `Err` of the codec error type, a process panic (`panic!`, `expect`,
`unwrap`, `unimplemented!`), or fuel exhaustion of the bounded model
(unreachable for the inputs considered, see the module comment). -/
inductive DeOutcome (α : Type) where
  | ok (val : α)
  | err (kind : DeErrorKind)
  | panicked
  | outOfFuel
  deriving DecidableEq, Repr

/-- Rust `u64::from_str`: an optional leading `+`, then at least one ASCII
digit and nothing else, with the value below `2 ^ 64`. -/
def parseNatLiteral (l : List Char) : Option Nat :=
  let digits := match l with
    | '+' :: rest => rest
    | _ => l
  if digits.isEmpty || !(digits.all Char.isDigit) then none
  else
    let v := digits.foldl (fun acc c => acc * 10 + (c.toNat - 48)) 0
    if v < 2 ^ 64 then some v else none

/-- `nom_parsers::parse_unsigned` (`src/alpm_desc/de.rs` lines 989-990):
`recognize!(take_till1!(call!(is_digit)))` under nom 4's STREAMING
semantics for plain `&str` input (no `CompleteStr` wrapper is used):
`take_till1` succeeds only when the predicate fires — i.e. a digit occurs —
after a non-empty run of non-digit characters, and it fails both when the
input starts with a digit (empty run, a `TakeTill1` error) and when no
digit appears before the end of the input (`Err::Incomplete`).  Success
recognises that non-digit run and returns
`(remaining input, recognised run)`; either failure is an `Err(_)` to the
caller. -/
def nom_parse_unsigned (input : List Char) : Option (List Char × List Char) :=
  let recognised := input.takeWhile (fun c => !c.isDigit)
  if recognised.isEmpty then none
  else if recognised.length == input.length then none
  else some (input.drop recognised.length, recognised)

/-- `DeserializerInner::parse_unsigned` (`src/alpm_desc/de.rs` lines
913-927): run the nom parser; on success the recognised string is fed to
`str::parse` and a parse failure hits
`.expect("internal error: recognised but failed parse")` — a panic; on nom
failure the method returns `Err(ErrorKind::ExpectedUnsigned)`. -/
def parse_unsigned (input : List Char) : DeOutcome Nat :=
  match nom_parse_unsigned input with
  | some (_, recognised) =>
    match parseNatLiteral recognised with
    | some n => .ok n
    | none => .panicked
  | none => .err .expectedUnsigned

/-- `nom_parsers::parse_key` (`src/alpm_desc/de.rs` lines 998-1006) with
line ending `"\n"`: `%`, then a non-empty run of non-`%` characters, then
`%` and the line ending.  Returns `(rest, key name)`. -/
def parseKey (input : List Char) : Option (List Char × List Char) :=
  match input with
  | '%' :: rest =>
    let name := rest.takeWhile (fun c => c ≠ '%')
    if name.isEmpty then none
    else
      match rest.drop name.length with
      | '%' :: '\n' :: tail => some (tail, name)
      | _ => none
  | _ => none

/-- `Deserializer::split_next_double_newline` (`src/alpm_desc/de.rs` lines
94-102): split at the first `"\n\n"`; when there is none the whole input is
the value and the remaining input is empty (`parse_value`, lines 77-88). -/
def splitDoubleNL : List Char → List Char × List Char
  | '\n' :: '\n' :: rest => ([], rest)
  | c :: rest =>
    let (v, r) := splitDoubleNL rest
    (c :: v, r)
  | [] => ([], [])

/-- Rust `str::eq_ignore_ascii_case`. -/
def eqIgnoreAsciiCase (a b : List Char) : Bool :=
  a.length == b.length &&
    (a.zip b).all (fun p => p.1.toLower == p.2.toLower)

/-- A record type with one string field and one list-of-strings field, the
shape quantified over by the codec round-trip property (and the shape of
the repository's own `alpm_desc::tests` record). -/
structure FriendRec where
  name : String
  friends : List String
  deriving DecidableEq, Repr

/-- Serialization of `FriendRec` through `ser::to_string`
(`src/alpm_desc/ser.rs`): `SerializeStruct::serialize_field` writes
`%KEY%\n` with the key upper-cased; a string scalar writes the string, a
newline, and (not being in a list) a second newline; a sequence writes each
element followed by a newline and then `SerializeSeq::end` writes the
terminating newline. -/
def serFriendRec (r : FriendRec) : String :=
  "%NAME%\n" ++ r.name ++ "\n\n" ++
    "%FRIENDS%\n" ++ String.join (r.friends.map (fun f => f ++ "\n")) ++ "\n"

/-- The `MapAccess` loop of the deserializer (`AlpmMap` in
`src/alpm_desc/de.rs`) specialised to `FriendRec`: stop when the remaining
input is all whitespace (missing required fields are a serde `custom`
error); otherwise parse a key, case-insensitively match it against the
field names, parse the value block, and deserialize it at the field's type.
A `String` field uses `deserialize_str` (the raw borrowed value block); a
`Vec` field uses `deserialize_seq`, which for the value deserializer
(`allow_list = true`) is `unimplemented!()` — a panic (lines 579-588).
An unmatched key is handled by `deserialize_ignored_any`, which defers to
`deserialize_any` and errors with `Unsupported`. -/
def deFriendRecLoop : Nat → List Char → Option String → Option (List String) →
    DeOutcome FriendRec
  | 0, _, _, _ => .outOfFuel
  | fuel + 1, input, nameAcc, friendsAcc =>
    if input.all Char.isWhitespace then
      match nameAcc with
      | none => .err (.custom "missing field name")
      | some n =>
        match friendsAcc with
        | none => .err (.custom "missing field friends")
        | some fl => .ok { name := n, friends := fl }
    else
      match parseKey input with
      | none => .err .expectedKey
      | some (rest, key) =>
        let (value, rest2) := splitDoubleNL rest
        if eqIgnoreAsciiCase key "name".toList then
          deFriendRecLoop fuel rest2 (some (String.mk value)) friendsAcc
        else if eqIgnoreAsciiCase key "friends".toList then
          .panicked
        else
          .err .unsupported

/-- `de::from_str` at type `FriendRec` (`src/alpm_desc/de.rs` lines
105-112 plus the `AlpmMap` loop). -/
def deFriendRec (s : String) : DeOutcome FriendRec :=
  deFriendRecLoop (s.toList.length + 1) s.toList none none

/-! ### The database layer -/

/-- The part of `Handle` used by the package operations: the root path. -/
structure Handle where
  rootPath : String
  deriving DecidableEq, Repr

/-- `src/error.rs` `ErrorKind` (the constructors relevant to the modelled
paths). -/
inductive ErrKind where
  | useAfterDrop
  | unexpectedIo
  | invalidLocalPackage (name : String)
  deriving DecidableEq, Repr

/-- Outcome of a database-layer call: normal return, library `Error`,
plain I/O error, or a process panic. -/
inductive DbOutcome (α : Type) where
  | ok (val : α)
  | err (kind : ErrKind)
  | ioErr
  | panicked
  deriving DecidableEq, Repr

/-- `src/db/local/package.rs` `FileType`. -/
inductive FType where
  | file
  | directory
  | symbolicLink
  | other
  deriving DecidableEq, Repr

/-- One entry of a local package's filtered mtree manifest: relative path,
optional expected file type, optional expected size. -/
structure FileRecord where
  path : String
  ftype : Option FType
  size : Option Nat
  deriving DecidableEq, Repr

/-- Result of `std::fs` metadata lookup for one path: found with a file
type and length, not found, or another I/O error. -/
inductive StatResult where
  | found (ftype : FType) (len : Nat)
  | notFound
  | otherErr
  deriving DecidableEq, Repr

/-- `src/db/local/package.rs` `ValidationError`. -/
inductive ValidationError where
  | fileNotFound (path : String)
  | wrongType (filename : String) (expected actual : FType)
  | wrongSize (filename : String) (expected actual : Nat)
  deriving DecidableEq, Repr

/-- Rust `u64` subtraction under overflow checks: `a - b` panics (returns
`none`) when the subtraction underflows. -/
def checkedSub64 (a b : Nat) : Option Nat :=
  if b ≤ a then some (a - b) else none

/-- `impl Display for ValidationError`, `WrongSize` arm
(`src/db/local/package.rs` lines 457-468): the message interpolates
`actual - expected` computed in `u64`; with overflow checks the formatting
panics (`none`) whenever `actual < expected` (in release builds the
difference wraps modulo `2 ^ 64` instead). -/
def displayWrongSize (filename : String) (expected actual : Nat) : Option String :=
  (checkedSub64 actual expected).map (fun diff =>
    "database says file \"" ++ filename ++ "\" should be " ++
      toString expected ++ " bytes, found " ++ toString actual ++
      " (a difference of " ++ toString diff ++ ")")

/-- The per-file body of `LocalPackage::validate`
(`src/db/local/package.rs` lines 163-214): stat each file under the root;
not-found pushes `FileNotFound`; other stat errors abort the call with the
I/O error; a type mismatch against the manifest pushes `WrongType` (with
`Other` expected types unchecked); a length different from the manifest's
recorded size pushes `WrongSize expected=manifest size, actual=on-disk
length`. -/
def validateFiles (stat : String → StatResult) (root : String) :
    List FileRecord → DbOutcome (List ValidationError)
  | [] => .ok []
  | f :: rest =>
    match stat (root ++ "/" ++ f.path) with
    | .notFound =>
      match validateFiles stat root rest with
      | .ok es => .ok (.fileNotFound f.path :: es)
      | o => o
    | .otherErr => .ioErr
    | .found actualTy len =>
      let typeErrs : List ValidationError :=
        match f.ftype with
        | none => []
        | some expectedTy =>
          match expectedTy, actualTy with
          | .file, .file => []
          | .file, ty => [.wrongType f.path .file ty]
          | .directory, .directory => []
          | .directory, ty => [.wrongType f.path .directory ty]
          | .symbolicLink, .symbolicLink => []
          | .symbolicLink, ty => [.wrongType f.path .symbolicLink ty]
          | .other, _ => []
      let sizeErrs : List ValidationError :=
        match f.size with
        | some size => if len ≠ size then [.wrongSize f.path size len] else []
        | none => []
      match validateFiles stat root rest with
      | .ok es => .ok (typeErrs ++ sizeErrs ++ es)
      | o => o

/-- `LocalPackage::validate` (`src/db/local/package.rs` lines 155-216): the
weak handle is resolved with `.upgrade().expect("the alpm instance no
longer exists")` — when the owning `Alpm` has been dropped (`none`) the
call PANICS; otherwise the file loop runs with the handle's root path. -/
def LocalPackage.validate (handle : Option Handle) (files : List FileRecord)
    (stat : String → StatResult) : DbOutcome (List ValidationError) :=
  match handle with
  | none => .panicked
  | some h => validateFiles stat h.rootPath files

/-- The accumulation loop of `LocalPackage::size_on_disk`
(`src/db/local/package.rs` lines 140-148): file lengths are summed,
skipping not-found entries and aborting on other I/O errors. -/
def sumFileSizes (stat : String → StatResult) (root : String) :
    List FileRecord → DbOutcome Nat
  | [] => .ok 0
  | f :: rest =>
    match stat (root ++ "/" ++ f.path) with
    | .notFound => sumFileSizes stat root rest
    | .otherErr => .ioErr
    | .found _ len =>
      match sumFileSizes stat root rest with
      | .ok acc => .ok (acc + len)
      | o => o

/-- `LocalPackage::size_on_disk` (`src/db/local/package.rs` lines 136-149):
the weak handle is resolved with `.upgrade().unwrap()` — a PANIC when the
owning `Alpm` has been dropped; otherwise the size loop runs with the
handle's root path. -/
def LocalPackage.size_on_disk (handle : Option Handle) (files : List FileRecord)
    (stat : String → StatResult) : DbOutcome Nat :=
  match handle with
  | none => .panicked
  | some h => sumFileSizes stat h.rootPath files

/-- `SyncDatabaseInner::get_handle` (`src/db/sync.rs` lines 389-391):
`self.handle.upgrade().ok_or(ErrorKind::UseAfterDrop.into())` — a dropped
handle yields the `UseAfterDrop` error value. -/
def SyncDatabase.get_handle (handle : Option Handle) : DbOutcome Handle :=
  match handle with
  | some h => .ok h
  | none => .err .useAfterDrop

/-- A filesystem entry: a directory (with the names of its entries) or a
regular file with contents. -/
inductive FsEntry where
  | dir (children : List String)
  | file (contents : List Nat)
  deriving DecidableEq, Repr

/-- A filesystem: a finite map from absolute paths to entries. -/
structure FileSys where
  entries : List (String × FsEntry)
  deriving DecidableEq, Repr

/-- Entry at a path, `none` when absent (`fs::metadata` NotFound). -/
def FileSys.lookup (fs : FileSys) (p : String) : Option FsEntry :=
  (fs.entries.find? (fun e => e.1 == p)).map Prod.snd

/-- Result of `fs::read`. -/
inductive ReadResult where
  | okBytes (bytes : List Nat)
  | errNotFound
  | errOther
  deriving DecidableEq, Repr

/-- `fs::read`: file contents; reading a directory is an I/O error that is
not NotFound. -/
def FileSys.readFile (fs : FileSys) (p : String) : ReadResult :=
  match fs.lookup p with
  | some (.file c) => .okBytes c
  | some (.dir _) => .errOther
  | none => .errNotFound

/-- `fs::File::create(p)` followed by writing `contents`: fails (`none`)
when `p` is an existing directory (EISDIR — a directory cannot be opened
for writing); otherwise creates or truncates the file at `p`. -/
def FileSys.createFile (fs : FileSys) (p : String) (contents : List Nat) :
    Option FileSys :=
  match fs.lookup p with
  | some (.dir _) => none
  | _ => some ⟨(p, .file contents) :: fs.entries.filter (fun e => !(e.1 == p))⟩

/-- `src/db/local/mod.rs` `LOCAL_DB_CURRENT_VERSION`. -/
def LOCAL_DB_CURRENT_VERSION : Nat := 9

/-- `src/db/local/mod.rs` `LOCAL_DB_VERSION_FILE`. -/
def LOCAL_DB_VERSION_FILE : String := "ALPM_DB_VERSION"

/-- `atoi::atoi::<u64>`: parse the leading run of ASCII digits of a byte
string; no digits (or overflow past `u64`) yields `none`. -/
def atoiNat (bytes : List Nat) : Option Nat :=
  let ds := bytes.takeWhile isDigitByte
  if ds.isEmpty then none
  else
    let v := ds.foldl (fun acc b => acc * 10 + (b - 48)) 0
    if v < 2 ^ 64 then some v else none

/-- `src/db.rs` `DbStatus` for the local database: `Missing` or
`Exists { valid }`. -/
inductive DbStatus where
  | missing
  | onDisk (valid : Bool)
  deriving DecidableEq, Repr

/-- `LocalDatabaseInner::create_version_file` (`src/db/local/mod.rs` lines
136-141): `fs::File::create(&self.path)` — NOTE the argument is
`self.path`, the database DIRECTORY itself (`$database_path/local`), not
`self.path.join(LOCAL_DB_VERSION_FILE)` — then the version constant and a
newline are written. -/
def create_version_file (fs : FileSys) (dbPath : String) : Option FileSys :=
  fs.createFile dbPath (strBytes "9\n")

/-- `LocalDatabaseInner::status` (`src/db/local/mod.rs` lines 199-264),
returning the status together with the resulting filesystem.  Missing
directory ⇒ `Missing`; not a directory ⇒ invalid; else read
`$path/ALPM_DB_VERSION`: parsable-and-equal-to-9 decides validity; when the
marker is absent, a non-empty directory is invalid, and an empty one calls
`create_version_file` — reporting valid only if that call succeeds (errors
are logged and yield invalid). -/
def LocalDatabase.status (fs : FileSys) (dbPath : String) :
    DbOutcome DbStatus × FileSys :=
  match fs.lookup dbPath with
  | none => (.ok .missing, fs)
  | some (.file _) => (.ok (.onDisk false), fs)
  | some (.dir children) =>
    match fs.readFile (dbPath ++ "/" ++ LOCAL_DB_VERSION_FILE) with
    | .okBytes bytes =>
      match atoiNat bytes with
      | some v => (.ok (.onDisk (v == LOCAL_DB_CURRENT_VERSION)), fs)
      | none => (.ok (.onDisk false), fs)
    | .errNotFound =>
      match children with
      | _ :: _ => (.ok (.onDisk false), fs)
      | [] =>
        match create_version_file fs dbPath with
        | some fs2 => (.ok (.onDisk true), fs2)
        | none => (.ok (.onDisk false), fs)
    | .errOther => (.ok (.onDisk false), fs)

/-- Response of one mirror to the conditional database fetch
(`reqwest` status in `SyncDatabaseInner::synchronize`). -/
inductive FetchResponse where
  | notModified
  | okBody (body : List Nat)
  | otherStatus (code : Nat)
  deriving DecidableEq, Repr

/-- Observable trace of one `synchronize` call: the servers contacted, in
order, and the successive bodies written (each truncating the database
file). -/
structure SyncRun where
  contacted : List String
  writes : List (List Nat)
  deriving DecidableEq, Repr

/-- The server loop of `SyncDatabaseInner::synchronize` (`src/db/sync.rs`
lines 335-385): each server in iteration order is requested;
`NOT_MODIFIED` returns success immediately with no write; any other
non-`OK` status is logged and also returns success with no write; on `OK`
the body is written to the database file and the `for` loop body simply
ends — there is no `return` or `break` — so the NEXT server is contacted
as well. -/
def synchronizeLoop (resp : String → FetchResponse) : List String → SyncRun
  | [] => { contacted := [], writes := [] }
  | s :: rest =>
    match resp s with
    | .notModified => { contacted := [s], writes := [] }
    | .otherStatus _ => { contacted := [s], writes := [] }
    | .okBody body =>
      let r := synchronizeLoop resp rest
      { contacted := s :: r.contacted, writes := body :: r.writes }

/-- `SyncDatabaseInner::synchronize` over its servers.  `servers` is the
iteration order of the `HashSet<Url>` field (`src/db/sync.rs` line 162) —
a `HashSet` iterates in an unspecified order, not registration order. -/
def synchronize (servers : List String) (resp : String → FetchResponse) : SyncRun :=
  synchronizeLoop resp servers

/-- Rust `String` `<` — byte-lexicographic comparison. -/
def rustStrLt (a b : String) : Bool := cmpBytes (strBytes a) (strBytes b) == .lt

/-- The version-selection loop of `LocalDatabaseInner::package_latest`
(`src/db/local/mod.rs` lines 167-175): the version KEYS of the cache are
folded with plain `String` ordering — `if v > version { version = v }` —
NOT with the `Version` comparison algorithm. -/
def package_latest_version (versions : List String) : Option String :=
  match versions with
  | [] => none
  | v :: rest =>
    some (rest.foldl (fun best x => if rustStrLt best x then x else best) v)

/-! ### Claim theorems -/

/-- C1: the claimed `Hash`/`Eq` law fails on the code.  `Version::parse`
of `"1-1"` and of `"1"` compare `Equal` under `Ord` (release absent on one
side), yet `impl Hash for Version` feeds different data to the hasher: the
release component of `"1-1"` contributes an extra `write` call, so the two
hash streams differ. -/
theorem c1_hash_law_violation :
    Version.beq (Version.parse "1-1") (Version.parse "1") = true ∧
      Version.hashEvents (Version.parse "1-1") ≠
        Version.hashEvents (Version.parse "1") := by
  decide

/-- C2 counterexample: the claim reads every row of the table through
`Version::parse` followed by `Ord::cmp`, and asserts
`cmp("1.2.4-alpha", "1.2.4") == Less`; but parsing strips `-alpha` into
the release component, release comparison is skipped when one side has no
release, and the parsed comparison is `Equal`, not `Less`. -/
theorem c2_counterexample :
    ¬ parsedCmp "1.2.4-alpha" "1.2.4" = Ordering.lt := by
  decide

/-- C2 amended: all rows of the literal table hold through `Version::parse`
plus `Ord::cmp` EXCEPT `cmp("1.2.4-alpha","1.2.4")` and
`cmp("1.2.4-1","1.2.4")`, which evaluate to `Equal` (the `-...` suffix
parses as the release, and a release present on only one side compares
`Equal`); those two rows hold as stated (`Less` resp. `Greater`) only for
the raw block comparison `version_cmp` applied to the unparsed strings. -/
theorem c2_version_table_amended :
    parsedCmp "" "" = .eq ∧
      parsedCmp "1" "" = .gt ∧
      parsedCmp "a" "1" = .lt ∧
      parsedCmp "001" "2" = .lt ∧
      parsedCmp "001" "1" = .eq ∧
      parsedCmp "1.2.4alpha" "1.2.4" = .lt ∧
      parsedCmp "1.2.4-alpha" "1.2.4" = .eq ∧
      parsedCmp "1.2.4-1" "1.2.4" = .eq ∧
      parsedCmp "1.2.4--" "1.2.4---" = .eq ∧
      parsedCmp "1-1" "1" = .eq ∧
      parsedCmp "1:1.0.0-100" "0:v1000.0.0" = .gt ∧
      version_cmp "1.2.4-alpha" "1.2.4" = .lt ∧
      version_cmp "1.2.4-1" "1.2.4" = .gt := by
  decide

/-- C3: the codec round trip does not return the original record — it does
not even return.  Serializing a record with a list-valued field succeeds,
but deserializing the output reaches `DeserializerInner::deserialize_seq`,
which for a value block (`allow_list == true`) is `unimplemented!()`: the
round trip PANICS, for non-empty and for empty lists alike, instead of
returning `Ok(x)` as claimed. -/
theorem c3_roundtrip_panics :
    deFriendRec (serFriendRec { name := "Me", friends := ["some", "friends"] }) =
        .panicked ∧
      deFriendRec (serFriendRec { name := "Me", friends := [] }) = .panicked := by
  decide

/-- C4: unsigned-field parsing is inverted.  `nom_parsers::parse_unsigned`
is `take_till1!(is_digit)`, which recognises a non-empty run of NON-digit
characters (failing, under nom's streaming `&str` semantics, also when no
digit follows before end of input): the decimal value block `"60"` is
rejected with `ExpectedUnsigned` instead of parsing to `60`; a block such
as `"abc"` fails as incomplete and also yields `ExpectedUnsigned`; and a
block such as `"abc1"`, where a digit follows the non-digit run, is
"recognised" as `"abc"` and then panics in
`.expect("internal error: recognised but failed parse")` — so digit
strings do not parse and not every malformed block is a returned error. -/
theorem c4_parse_unsigned_broken :
    parse_unsigned "60".toList = .err .expectedUnsigned ∧
      parse_unsigned "abc".toList = .err .expectedUnsigned ∧
      parse_unsigned "abc1".toList = .panicked := by
  decide

/-- C5: the block decomposition is not by maximal single-class runs.  The
alphabetic arm of `BlocksIter::next` extends the block with DIGIT bytes
(`get_block!(self.rest, u8::is_ascii_digit)`), so `"a10"` decomposes into
the single alpha block `[0x61, 0x31, 0x30]` rather than alpha `"a"`
followed by numeric `"10"`; consequently `version_cmp("a10", "a2")` is a
lexicographic byte comparison of `"a10"` with `"a2"` and returns `Less`,
not the claimed `Greater`. -/
theorem c5_alpha_blocks_not_maximal :
    blocks (strBytes "a10") = [Block.alpha [97, 49, 48]] ∧
      version_cmp "a10" "a2" = .lt := by
  decide

/-- C6: with the owning `Alpm` instance dropped, `LocalPackage::validate`
and `LocalPackage::size_on_disk` PANIC (`.expect(...)` / `.unwrap()` on the
failed weak-handle upgrade) instead of returning a `UseAfterDrop` error;
only the sync-database path (`SyncDatabaseInner::get_handle`) returns the
claimed distinct `UseAfterDrop` error value. -/
theorem c6_use_after_drop_panics :
    LocalPackage.validate none [] (fun _ => .notFound) = .panicked ∧
      LocalPackage.size_on_disk none [] (fun _ => .notFound) = .panicked ∧
      SyncDatabase.get_handle none = .err .useAfterDrop := by
  decide

/-- C7: on an existing, empty local database directory with no version
marker, `status()` reports `Exists { valid: false }` and creates nothing:
`create_version_file` calls `fs::File::create(&self.path)` on the database
DIRECTORY itself rather than on `$path/ALPM_DB_VERSION`, which fails
(the path is an existing directory), so the claimed marker file is never
written and the claimed `valid: true` is not returned. -/
theorem c7_status_does_not_create_marker :
    LocalDatabase.status ⟨[("/db/local", FsEntry.dir [])]⟩ "/db/local" =
        (.ok (.onDisk false), ⟨[("/db/local", FsEntry.dir [])]⟩) ∧
      create_version_file ⟨[("/db/local", FsEntry.dir [])]⟩ "/db/local" = none := by
  decide

/-- C8: `synchronize` does NOT stop after the first mirror that delivers an
`OK` body: with two servers in iteration order and the first answering
`OK`, the second is contacted as well and the database file is written
twice (there is no `return`/`break` after the `OK` write).  The
not-modified short-circuit, by contrast, does hold: a `NOT_MODIFIED` from
the first server ends the call with no write and no further contact. -/
theorem c8_synchronize_continues_after_ok :
    synchronize ["s1", "s2"] (fun _ => .okBody [1]) =
        { contacted := ["s1", "s2"], writes := [[1], [1]] } ∧
      synchronize ["s1", "s2"]
          (fun s => if s == "s1" then .notModified else .okBody [1]) =
        { contacted := ["s1"], writes := [] } := by
  decide

/-- C9: `package_latest` selects the maximum version KEY under plain
`String` (byte-lexicographic) ordering, not under the version-comparison
algorithm: with cached versions `"9.0"` and `"10.0"` (in either iteration
order) it selects `"9.0"`, although `version_cmp` orders `"10.0"` above
`"9.0"`. -/
theorem c9_package_latest_string_order :
    package_latest_version ["9.0", "10.0"] = some "9.0" ∧
      package_latest_version ["10.0", "9.0"] = some "9.0" ∧
      version_cmp "10.0" "9.0" = .gt := by
  decide

/-- C10: formatting `ValidationError::WrongSize` underflows whenever
`actual < expected`: the `Display` arm interpolates `actual - expected`
computed in `u64`, so `expected = 100, actual = 50` — exactly the
discrepancy `validate()` records for an installed file smaller than the
manifest size — panics under overflow checks (and wraps in release builds)
instead of terminating normally; for `actual ≥ expected` the message is
produced. -/
theorem c10_wrong_size_display_underflow :
    displayWrongSize "f" 100 50 = none ∧
      LocalPackage.validate (some ⟨"/root"⟩) [⟨"f", some .file, some 100⟩]
          (fun _ => .found .file 50) =
        .ok [.wrongSize "f" 100 50] ∧
      displayWrongSize "f" 100 150 =
        some "database says file \"f\" should be 100 bytes, found 150 (a difference of 50)" := by
  decide

end Alpm
